import Mathlib

/-! # talos-utils: configuration builders

A shallow embedding of `utils.go` (package `talosutils`) and a verification of
its documented properties.

Conventions of the embedding.

* A Go pointer `*T` is `Ptr T = Option T`; `none` is the nil pointer.  Every
  builder returns the address of a fresh composite literal, which is never nil,
  so a builder returns the record itself.  Sharing of one address between
  several fields (the local `f` of several builders) is not visible in a value
  embedding; only the pointed-to value is.
* A Go slice `[]T` is `Slice T = Option (List T)`; `none` is the nil slice and
  `some []` is the empty, non-nil slice `[]T{}`.
* A Go map `map[K]V` is `Ptr (GoMap K V)`; `none` is the nil map.
* A run-time panic is the `error` case of `Except Panic`.  Only functions that
  dereference one of their pointer arguments can panic; all others are plain
  total functions.
* The records of the external packages `v1alpha1`, `x509`, `url` and `net` are
  given with the fields this module reads or writes.  Every other field of
  those records keeps its zero value in every builder and is left out.
-/

namespace TalosUtils

/-! ## Go data -/

/-- A Go pointer: `none` is nil. -/
abbrev Ptr (α : Type) := Option α

/-- A Go slice: `none` is the nil slice, `some []` the empty non-nil slice. -/
abbrev Slice (α : Type) := Option (List α)

/-- The elements visited by `for _, x := range s`; a nil slice has none. -/
def Slice.elems {α : Type} (s : Slice α) : List α :=
  match s with
  | none => []
  | some l => l

/-- The Go builtin `len` on a slice. -/
def Slice.len {α : Type} (s : Slice α) : Nat := (Slice.elems s).length

/-- A non-nil Go map.  `entries` lists the key/value pairs in the order in
which a `range` statement visits them; Go leaves that order unspecified, so a
statement about all maps is a statement about every visiting order.  Keys are
pairwise distinct. -/
structure GoMap (κ ν : Type) where
  entries : List (κ × ν)
  nodupKeys : (entries.map Prod.fst).Nodup

/-- The map literal `map[K]V{}`. -/
def GoMap.empty {κ ν : Type} : GoMap κ ν := ⟨[], List.nodup_nil⟩

/-- The pairs visited by `for k, v := range m`; a nil map has none. -/
def rangeMap {κ ν : Type} (m : Ptr (GoMap κ ν)) : List (κ × ν) :=
  match m with
  | none => []
  | some g => g.entries

/-- The Go builtin `len` on a map. -/
def lenMap {κ ν : Type} (m : Ptr (GoMap κ ν)) : Nat := (rangeMap m).length

/-- A byte. -/
abbrev Byte := Fin 256

/-- A run-time panic. -/
inductive Panic where
  | nilPointerDereference
  deriving DecidableEq, Repr

/-- A value of the empty interface `any`, as far as the literals of this
module build one: a string, a boolean, a `[]string`, or a nested
`map[string]any` literal (its entries in source order). -/
inductive GoAny where
  | str (s : String)
  | bool (b : Bool)
  | strs (l : Slice String)
  | obj (m : List (String × GoAny))

/-- Index expression `m[key]` on a `map[string]any` literal. -/
def GoAny.lookup (key : String) : List (String × GoAny) → Option GoAny
  | [] => none
  | (k, v) :: rest => if k = key then some v else GoAny.lookup key rest

/-- Field access into a nested `map[string]any`: `v[key]` when `v` is a map. -/
def GoAny.field (key : String) : GoAny → Option GoAny
  | GoAny.obj m => GoAny.lookup key m
  | _ => none

/-! ## `crypto/x509` records -/

/-- The record `x509.PEMEncodedCertificateAndKey`. -/
structure PEMEncodedCertificateAndKey where
  Crt : Slice Byte := none
  Key : Slice Byte := none
  deriving DecidableEq, Repr

/-- The record `x509.PEMEncodedCertificate`. -/
structure PEMEncodedCertificate where
  Crt : Slice Byte := none
  deriving DecidableEq, Repr

/-- The record `x509.PEMEncodedKey`. -/
structure PEMEncodedKey where
  Key : Slice Byte := none
  deriving DecidableEq, Repr

/-! ## Standard-library values: `net.IP` and `url.URL` -/

/-- The type `net.IP`, a byte slice. -/
abbrev IP := Slice Byte

/-- Decimal form of a byte sequence joined by dots, as `netip` prints an
IPv4 address. -/
def dottedDecimal (bs : List Byte) : String :=
  String.intercalate "." (bs.map (fun b => toString b.val))

/-- Lower-case hexadecimal form of a number without leading zeros. -/
def hexDigits (n : Nat) : String := String.mk (Nat.toDigits 16 n)

/-- Two lower-case hexadecimal digits per byte, as `hexString` in `net`. -/
def hexString (bs : List Byte) : String :=
  String.join (bs.map (fun b =>
    String.mk [Nat.digitChar (b.val / 16), Nat.digitChar (b.val % 16)]))

/-- The eight 16-bit groups of a 16-byte address. -/
def groups16 : List Byte → List Nat
  | hi :: lo :: rest => (hi.val * 256 + lo.val) :: groups16 rest
  | _ => []

/-- Number of zero groups at the front of a list. -/
def zeroRun : List Nat → Nat
  | 0 :: rest => zeroRun rest + 1
  | _ => 0

/-- First pass of the IPv6 printer: the first longest run of at least two zero
groups, as a pair (start, end); (255, 255) when there is none. -/
def longestZeroRun (g : List Nat) : Nat × Nat :=
  (List.range 8).foldl
    (fun z i =>
      let j := i + zeroRun (g.drop i)
      if 2 ≤ j - i ∧ z.2 - z.1 < j - i then (i, j) else z)
    (255, 255)

/-- Second pass of the IPv6 printer: the loop over group index `i`, with the
zero run replaced by a double colon.  The first argument bounds the number of
iterations (at most eight are made). -/
def string6Loop (g : List Nat) (zs ze : Nat) : Nat → Nat → String → String
  | 0, _, ret => ret
  | fuel + 1, i, ret =>
    if 8 ≤ i then ret
    else if i = zs then
      if 8 ≤ ze then ret ++ "::"
      else string6Loop g zs ze fuel (ze + 1) (ret ++ "::" ++ hexDigits (g.getD ze 0))
    else if 0 < i then
      string6Loop g zs ze fuel (i + 1) (ret ++ ":" ++ hexDigits (g.getD i 0))
    else
      string6Loop g zs ze fuel (i + 1) (ret ++ hexDigits (g.getD i 0))

/-- Text of a 16-byte address that is not an IPv4-mapped one. -/
def string6 (bs : List Byte) : String :=
  let g := groups16 bs
  let z := longestZeroRun g
  string6Loop g z.1 z.2 8 0 ""

/-- The method `To4` of `net.IP` on the bytes of an address: the four bytes of
an IPv4 address, taken from a 4-byte form or from the 16-byte IPv4-mapped
form; `none` otherwise. -/
def to4 (bs : List Byte) : Option (List Byte) :=
  if bs.length = 4 then some bs
  else if bs.length = 16 ∧ (bs.take 10).all (fun b => b = 0)
      ∧ bs.getD 10 0 = 255 ∧ bs.getD 11 0 = 255 then some (bs.drop 12)
  else none

/-- The method `String` of `net.IP` (Go standard library): the text `<nil>`
for an address of length zero, a question mark and the hexadecimal bytes for
a length other than 4 and 16, dotted decimal for an IPv4 address, and the
compressed colon form for any other 16-byte address. -/
def IP.String (ip : IP) : String :=
  let bs := Slice.elems ip
  if bs.length = 0 then "<nil>"
  else if bs.length ≠ 4 ∧ bs.length ≠ 16 then "?" ++ hexString bs
  else
    match to4 bs with
    | some p4 => dottedDecimal p4
    | none => string6 bs

/-- The record `url.URL`, with the fields of a parsed absolute URL. -/
structure URL where
  Scheme : String := ""
  Host : String := ""
  Path : String := ""
  deriving DecidableEq, Repr

/-- Index of the last occurrence of a character (`strings.LastIndexByte`). -/
def lastIndexByte : List Char → Char → Option Nat
  | [], _ => none
  | x :: xs, c =>
    match lastIndexByte xs c with
    | some i => some (i + 1)
    | none => if x = c then some 0 else none

/-- The helper `validOptionalPort` of `net/url`: empty, or a colon followed by
decimal digits only. -/
def validOptionalPort : List Char → Bool
  | [] => true
  | c :: rest => c = ':' && rest.all Char.isDigit

/-- The host part computed by `splitHostPort` of `net/url`: a valid trailing
port is cut off, then enclosing square brackets are removed. -/
def splitHost (hostPort : List Char) : List Char :=
  let host :=
    match lastIndexByte hostPort ':' with
    | some colon =>
      if validOptionalPort (hostPort.drop colon) then hostPort.take colon else hostPort
    | none => hostPort
  if host.head? = some '[' ∧ host.getLast? = some ']' then
    (host.drop 1).take (host.length - 2)
  else host

/-- The method `Hostname` of `url.URL` on a non-nil receiver. -/
def URL.Hostname (u : URL) : String := String.mk (splitHost u.Host.data)

/-! ## `v1alpha1` records -/

/-- The record `v1alpha1.Unstructured`: a `map[string]any`, nil when unset. -/
structure Unstructured where
  Object : Ptr (List (String × GoAny)) := none

/-- The record `v1alpha1.DiskPartition`; `DiskSize` is an unsigned 64-bit
count. -/
structure DiskPartition where
  DiskSize : Nat := 0
  DiskMountPoint : String := ""
  deriving DecidableEq, Repr

/-- The record `v1alpha1.MachineDisk`. -/
structure MachineDisk where
  DeviceName : String := ""
  DiskPartitions : Slice (Ptr DiskPartition) := none
  deriving DecidableEq, Repr

/-- The record `v1alpha1.DeviceVIPConfig`. -/
structure DeviceVIPConfig where
  SharedIP : String := ""
  deriving DecidableEq, Repr

/-- The record `v1alpha1.Device`; `DeviceMTU` is a signed integer. -/
structure Device where
  DeviceInterface : String := ""
  DeviceAddresses : Slice String := none
  DeviceMTU : Int := 0
  DeviceVIPConfig : Ptr DeviceVIPConfig := none
  deriving DecidableEq, Repr

/-- The record `v1alpha1.ExtraHost`. -/
structure ExtraHost where
  HostIP : String := ""
  HostAliases : Slice String := none
  deriving DecidableEq, Repr

/-- The record `v1alpha1.NetworkKubeSpan`. -/
structure NetworkKubeSpan where
  KubeSpanEnabled : Ptr Bool := none
  deriving DecidableEq, Repr

/-- The record `v1alpha1.NetworkConfig`. -/
structure NetworkConfig where
  NetworkHostname : String := ""
  NetworkInterfaces : Slice (Ptr Device) := none
  NameServers : Slice String := none
  Searches : Slice String := none
  ExtraHostEntries : Slice (Ptr ExtraHost) := none
  NetworkKubeSpan : Ptr NetworkKubeSpan := none
  NetworkDisableSearchDomain : Ptr Bool := none
  deriving DecidableEq, Repr

/-- The record `v1alpha1.InstallConfig`. -/
structure InstallConfig where
  InstallDisk : String := ""
  InstallExtraKernelArgs : Slice String := none
  InstallImage : String := ""
  InstallWipe : Ptr Bool := none
  InstallLegacyBIOSSupport : Ptr Bool := none
  deriving DecidableEq, Repr

/-- The record `v1alpha1.RegistryTLSConfig`. -/
structure RegistryTLSConfig where
  TLSInsecureSkipVerify : Ptr Bool := none
  deriving DecidableEq, Repr

/-- The record `v1alpha1.RegistryAuthConfig`. -/
structure RegistryAuthConfig where
  RegistryUsername : String := ""
  RegistryPassword : String := ""
  deriving DecidableEq, Repr

/-- The record `v1alpha1.RegistryConfig`. -/
structure RegistryConfig where
  RegistryTLS : Ptr RegistryTLSConfig := none
  RegistryAuth : Ptr RegistryAuthConfig := none
  deriving DecidableEq, Repr

/-- The record `v1alpha1.RegistriesConfig`. -/
structure RegistriesConfig where
  RegistryConfig : Ptr (GoMap String (Ptr RegistryConfig)) := none

/-- The record `v1alpha1.EncryptionConfig`. -/
structure EncryptionConfig where
  EncryptionProvider : String := ""
  deriving DecidableEq, Repr

/-- The record `v1alpha1.SystemDiskEncryptionConfig`. -/
structure SystemDiskEncryptionConfig where
  StatePartition : Ptr EncryptionConfig := none
  EphemeralPartition : Ptr EncryptionConfig := none
  deriving DecidableEq, Repr

/-- The record `v1alpha1.UdevConfig`. -/
structure UdevConfig where
  UdevRules : Slice String := none
  deriving DecidableEq, Repr

/-- The record `v1alpha1.KernelModuleConfig`. -/
structure KernelModuleConfig where
  ModuleName : String := ""
  ModuleParameters : Slice String := none
  deriving DecidableEq, Repr

/-- The record `v1alpha1.KernelConfig`. -/
structure KernelConfig where
  KernelModules : Slice (Ptr KernelModuleConfig) := none
  deriving DecidableEq, Repr

/-- The record `v1alpha1.TimeConfig`. -/
structure TimeConfig where
  TimeDisabled : Ptr Bool := none
  deriving DecidableEq, Repr

/-- The record `v1alpha1.MachineFile`. -/
structure MachineFile where
  FileContent : String := ""
  FilePath : String := ""
  deriving DecidableEq, Repr

/-- The record `v1alpha1.MachineControllerManagerConfig`. -/
structure MachineControllerManagerConfig where
  MachineControllerManagerDisabled : Ptr Bool := none
  deriving DecidableEq, Repr

/-- The record `v1alpha1.MachineSchedulerConfig`. -/
structure MachineSchedulerConfig where
  MachineSchedulerDisabled : Ptr Bool := none
  deriving DecidableEq, Repr

/-- The record `v1alpha1.MachineControlPlaneConfig`. -/
structure MachineControlPlaneConfig where
  MachineControllerManager : Ptr MachineControllerManagerConfig := none
  MachineScheduler : Ptr MachineSchedulerConfig := none
  deriving DecidableEq, Repr

/-- The record `v1alpha1.KubeletConfig`. -/
structure KubeletConfig where
  KubeletImage : String := ""
  KubeletExtraConfig : Unstructured := {}

/-- The record `v1alpha1.MachineConfig`. -/
structure MachineConfig where
  MachineType : String := ""
  MachineToken : String := ""
  MachineCA : Ptr PEMEncodedCertificateAndKey := none
  MachineAcceptedCAs : Slice (Ptr PEMEncodedCertificate) := none
  MachineControlPlane : Ptr MachineControlPlaneConfig := none
  MachineKubelet : Ptr KubeletConfig := none
  MachineNetwork : Ptr NetworkConfig := none
  MachineDisks : Slice (Ptr MachineDisk) := none
  MachineInstall : Ptr InstallConfig := none
  MachineFiles : Slice (Ptr MachineFile) := none
  MachineEnv : Ptr (GoMap String String) := none
  MachineTime : Ptr TimeConfig := none
  MachineRegistries : RegistriesConfig := {}
  MachineSystemDiskEncryption : Ptr SystemDiskEncryptionConfig := none
  MachineUdev : Ptr UdevConfig := none
  MachineKernel : Ptr KernelConfig := none
  MachineNodeAnnotations : Ptr (GoMap String String) := none
  MachineNodeTaints : Ptr (GoMap String String) := none

/-- The record `v1alpha1.Endpoint`, which embeds a `*url.URL`. -/
structure Endpoint where
  URL : Ptr URL := none
  deriving DecidableEq, Repr

/-- The record `v1alpha1.ControlPlaneConfig`. -/
structure ControlPlaneConfig where
  Endpoint : Ptr Endpoint := none
  deriving DecidableEq, Repr

/-- The record `v1alpha1.CNIConfig`. -/
structure CNIConfig where
  CNIName : String := ""
  CNIUrls : Slice String := none
  deriving DecidableEq, Repr

/-- The record `v1alpha1.ClusterNetworkConfig`. -/
structure ClusterNetworkConfig where
  CNI : Ptr CNIConfig := none
  DNSDomain : String := ""
  PodSubnet : Slice String := none
  ServiceSubnet : Slice String := none
  deriving DecidableEq, Repr

/-- The record `v1alpha1.AdmissionPluginConfig`. -/
structure AdmissionPluginConfig where
  PluginName : String := ""
  PluginConfiguration : Unstructured := {}

/-- The record `v1alpha1.APIServerConfig`. -/
structure APIServerConfig where
  ContainerImage : String := ""
  ExtraArgsConfig : Ptr (GoMap String String) := none
  CertSANs : Slice String := none
  DisablePodSecurityPolicyConfig : Ptr Bool := none
  AdmissionControlConfig : Slice (Ptr AdmissionPluginConfig) := none
  AuditPolicyConfig : Unstructured := {}

/-- The record `v1alpha1.ProxyConfig`. -/
structure ProxyConfig where
  ContainerImage : String := ""
  deriving DecidableEq, Repr

/-- The record `v1alpha1.ControllerManagerConfig`. -/
structure ControllerManagerConfig where
  ContainerImage : String := ""
  deriving DecidableEq, Repr

/-- The record `v1alpha1.SchedulerConfig`. -/
structure SchedulerConfig where
  ContainerImage : String := ""
  deriving DecidableEq, Repr

/-- The record `v1alpha1.EtcdConfig`. -/
structure EtcdConfig where
  ContainerImage : String := ""
  RootCA : Ptr PEMEncodedCertificateAndKey := none
  deriving DecidableEq, Repr

/-- The type `v1alpha1.ClusterInlineManifest`. -/
structure ClusterInlineManifest where
  InlineManifestName : String := ""
  InlineManifestContents : String := ""
  deriving DecidableEq, Repr

/-- The record `v1alpha1.ClusterConfig`. -/
structure ClusterConfig where
  ClusterID : String := ""
  ClusterSecret : String := ""
  ControlPlane : Ptr ControlPlaneConfig := none
  ClusterName : String := ""
  ClusterNetwork : Ptr ClusterNetworkConfig := none
  BootstrapToken : String := ""
  ClusterSecretboxEncryptionSecret : String := ""
  ClusterCA : Ptr PEMEncodedCertificateAndKey := none
  ClusterAggregatorCA : Ptr PEMEncodedCertificateAndKey := none
  ClusterServiceAccount : Ptr PEMEncodedKey := none
  APIServerConfig : Ptr APIServerConfig := none
  ControllerManagerConfig : Ptr ControllerManagerConfig := none
  ProxyConfig : Ptr ProxyConfig := none
  SchedulerConfig : Ptr SchedulerConfig := none
  EtcdConfig : Ptr EtcdConfig := none
  ExtraManifests : Slice String := none
  ExtraManifestHeaders : Ptr (GoMap String String) := none
  ClusterInlineManifests : Slice ClusterInlineManifest := none

/-- The record `v1alpha1.Config`. -/
structure Config where
  ConfigVersion : String := ""
  ConfigDebug : Ptr Bool := none
  MachineConfig : Ptr MachineConfig := none
  ClusterConfig : Ptr ClusterConfig := none

/-! ## The builders of `utils.go` -/

/-- The string type `MachineType`. -/
abbrev MachineType := String

/-- The constant `Worker`. -/
def Worker : MachineType := "worker"

/-- The constant `ControlPlane`. -/
def ControlPlane : MachineType := "controlplane"

/-- The string type `EncryptionProvider`. -/
abbrev EncryptionProvider := String

/-- The constant `LUKSProvider`. -/
def LUKSProvider : EncryptionProvider := "luks2"

/-- The conversion `int(u)` of an unsigned 64-bit value: the value is read
modulo 2^64 in two's complement. -/
def uintToInt (u : Nat) : Int :=
  if u % 2 ^ 64 < 2 ^ 63 then ((u % 2 ^ 64 : Nat) : Int)
  else ((u % 2 ^ 64 : Nat) : Int) - 2 ^ 64

/-- The function `NewNodeConfig`. -/
def NewNodeConfig (machine : Ptr MachineConfig) (cluster : Ptr ClusterConfig) : Config :=
  let f := false
  { ConfigVersion := "v1alpha1"
    ConfigDebug := some f
    MachineConfig := machine
    ClusterConfig := cluster }

set_option linter.unusedVariables false in
/-- The function `NewMachineConfig`.  The arguments `hostname`, `url` and
`port` are accepted as in the source. -/
def NewMachineConfig (t : MachineType) (token hostname : String)
    (disks : Slice (Ptr MachineDisk)) (net : Ptr NetworkConfig)
    (install : Ptr InstallConfig) (kubelet : Ptr KubeletConfig)
    (registries : Ptr (GoMap String (Ptr RegistryConfig))) (url : String) (port : Nat)
    (kernelModules : Slice (Ptr KernelModuleConfig)) (udevRules : Slice String)
    (ca : Ptr PEMEncodedCertificateAndKey)
    (additionalCas : Slice (Ptr PEMEncodedCertificate)) : MachineConfig :=
  let f := false
  { MachineType := t
    MachineToken := token
    MachineDisks := disks
    MachineInstall := install
    MachineNetwork := net
    MachineUdev := some { UdevRules := udevRules }
    MachineCA := ca
    MachineAcceptedCAs := additionalCas
    MachineControlPlane := some
      { MachineControllerManager := some { MachineControllerManagerDisabled := some f }
        MachineScheduler := some { MachineSchedulerDisabled := some f } }
    MachineFiles := some []
    MachineTime := some { TimeDisabled := some f }
    MachineSystemDiskEncryption := some {}
    MachineKubelet := kubelet
    MachineKernel := some { KernelModules := kernelModules }
    MachineNodeAnnotations := some GoMap.empty
    MachineNodeTaints := some GoMap.empty
    MachineEnv := some GoMap.empty
    MachineRegistries := { RegistryConfig := registries } }

/-- The function `NewTalosNetworkConfig`. -/
def NewTalosNetworkConfig (hostname : String) (devices : Slice (Ptr Device))
    (nameservers searchDomains : Slice String) : NetworkConfig :=
  let f := false
  { NetworkHostname := hostname
    NetworkInterfaces := devices
    NameServers := nameservers
    Searches := searchDomains
    ExtraHostEntries := some []
    NetworkKubeSpan := some { KubeSpanEnabled := some f }
    NetworkDisableSearchDomain := some f }

/-- The function `NewTalosNICFixedIP`.  The loop starts from the empty non-nil
slice and appends the text of each address in turn. -/
def NewTalosNICFixedIP (iface : String) (addresses : Slice IP) (mtu : Nat) : Device :=
  let addrs : List String :=
    (Slice.elems addresses).foldl (fun addrs ip => addrs ++ [IP.String ip]) []
  { DeviceInterface := iface
    DeviceAddresses := some addrs
    DeviceMTU := uintToInt mtu }

/-- The function `NewTalosNICVIP`. -/
def NewTalosNICVIP (iface : String) (sharedIP : IP) (mtu : Nat) : Device :=
  { DeviceInterface := iface
    DeviceMTU := uintToInt mtu
    DeviceVIPConfig := some { SharedIP := IP.String sharedIP } }

/-- The function `NewTalosDisk`.  The loop starts from the empty non-nil slice
and appends one fresh partition record per visited pair of the map. -/
def NewTalosDisk (dev : String) (partitions : Ptr (GoMap Nat String)) : MachineDisk :=
  let partitionList : List (Ptr DiskPartition) :=
    (rangeMap partitions).foldl
      (fun partitionList p =>
        partitionList ++ [some { DiskSize := p.1, DiskMountPoint := p.2 }])
      []
  { DeviceName := dev
    DiskPartitions := some partitionList }

/-- The function `newImage`: `fmt.Sprintf` with the format `%s:%s`. -/
def newImage (image tag : String) : String := image ++ ":" ++ tag

/-- The function `NewTalosInstallConfig`. -/
def NewTalosInstallConfig (image tag installDev : String) (kernelArgs : Slice String)
    (wipe : Bool) : InstallConfig :=
  let legacyBIOS := false
  { InstallDisk := installDev
    InstallExtraKernelArgs := kernelArgs
    InstallWipe := some wipe
    InstallImage := newImage image tag
    InstallLegacyBIOSSupport := some legacyBIOS }

/-- The function `NewTalosRegistryBasicAuth`. -/
def NewTalosRegistryBasicAuth (user password : String) (tlsSkipVerify : Bool) :
    RegistryConfig :=
  { RegistryTLS := some { TLSInsecureSkipVerify := some tlsSkipVerify }
    RegistryAuth := some { RegistryUsername := user, RegistryPassword := password } }

/-- The function `NewTalosDiskEncryptionConfig`. -/
def NewTalosDiskEncryptionConfig (provider : EncryptionProvider) : EncryptionConfig :=
  { EncryptionProvider := provider }

/-- The function `NewClusterConfigControlplane`. -/
def NewClusterConfigControlplane (endpoint : Ptr URL)
    (name id secret bootstrapToken secretBoxKey : String)
    (net : Ptr ClusterNetworkConfig) (apiServer : Ptr APIServerConfig)
    (proxy : Ptr ProxyConfig) (controllerMgr : Ptr ControllerManagerConfig)
    (scheduler : Ptr SchedulerConfig) (etcd : Ptr EtcdConfig)
    (clusterCA clusterAggregatorCA : Ptr PEMEncodedCertificateAndKey)
    (svcAcct : Ptr PEMEncodedKey) : ClusterConfig :=
  { ClusterName := name
    ClusterID := id
    BootstrapToken := bootstrapToken
    ClusterSecret := secret
    ClusterSecretboxEncryptionSecret := secretBoxKey
    ClusterCA := clusterCA
    ClusterAggregatorCA := clusterAggregatorCA
    ClusterNetwork := net
    ClusterServiceAccount := svcAcct
    ControlPlane := some { Endpoint := some { URL := endpoint } }
    APIServerConfig := apiServer
    ProxyConfig := proxy
    ControllerManagerConfig := controllerMgr
    SchedulerConfig := scheduler
    EtcdConfig := etcd
    ExtraManifests := some []
    ExtraManifestHeaders := some GoMap.empty
    ClusterInlineManifests := some [] }

/-- The function `NewClusterConfigWorker`.  The selector `clusterCA.Crt`
dereferences the argument, so a nil `clusterCA` panics. -/
def NewClusterConfigWorker (endpoint : Ptr URL) (name id secret bootstrapToken : String)
    (net : Ptr ClusterNetworkConfig) (clusterCA : Ptr PEMEncodedCertificateAndKey) :
    Except Panic ClusterConfig :=
  match clusterCA with
  | none => Except.error Panic.nilPointerDereference
  | some ca =>
    Except.ok
      { ClusterName := name
        ClusterID := id
        BootstrapToken := bootstrapToken
        ClusterSecret := secret
        ClusterCA := some { Crt := ca.Crt }
        ClusterNetwork := net
        ControlPlane := some { Endpoint := some { URL := endpoint } }
        ExtraManifests := some []
        ExtraManifestHeaders := some GoMap.empty
        ClusterInlineManifests := some [] }

/-- The body of the `PodSecurity` admission plugin configuration. -/
def podSecurityConfiguration : List (String × GoAny) :=
  [ ("apiVersion", GoAny.str "pod-security.admission.config.k8s.io/v1alpha1"),
    ("kind", GoAny.str "PodSecurityConfiguration"),
    ("defaults", GoAny.obj
      [ ("audit", GoAny.str "restricted"),
        ("audit-version", GoAny.str "latest"),
        ("enforce", GoAny.str "baseline"),
        ("enforce-version", GoAny.str "latest"),
        ("warn", GoAny.str "restricted"),
        ("warn-version", GoAny.str "latest") ]),
    ("exemptions", GoAny.obj
      [ ("namespaces", GoAny.strs (some ["kube-system"])),
        ("runtimeClasses", GoAny.strs (some [])),
        ("usernames", GoAny.strs (some [])) ]) ]

/-- The extra arguments of the API server: one key. -/
def apiServerExtraArgs : GoMap String String :=
  ⟨[("feature-gates",
      "UserNamespacesSupport=true,UserNamespacesPodSecurityStandards=true")],
    by simp⟩

/-- The function `NewTalosAPIServerConfig`.  The call `endpoint.Hostname()`
reads through the receiver, so a nil `endpoint` panics. -/
def NewTalosAPIServerConfig (image tag : String) (endpoint : Ptr URL) :
    Except Panic APIServerConfig :=
  let t := true
  match endpoint with
  | none => Except.error Panic.nilPointerDereference
  | some u =>
    Except.ok
      { ContainerImage := newImage image tag
        CertSANs := some [URL.Hostname u]
        ExtraArgsConfig := some apiServerExtraArgs
        AdmissionControlConfig := some
          [ some { PluginName := "PodSecurity"
                   PluginConfiguration := { Object := some podSecurityConfiguration } } ]
        DisablePodSecurityPolicyConfig := some t
        AuditPolicyConfig := {} }

/-- The function `NewTalosKubeProxyConfig`. -/
def NewTalosKubeProxyConfig (image tag : String) : ProxyConfig :=
  { ContainerImage := newImage image tag }

/-- The function `NewTalosControllerManagerConfig`. -/
def NewTalosControllerManagerConfig (image tag : String) : ControllerManagerConfig :=
  { ContainerImage := newImage image tag }

/-- The function `NewTalosSchedulerConfig`. -/
def NewTalosSchedulerConfig (image tag : String) : SchedulerConfig :=
  { ContainerImage := newImage image tag }

/-- The function `NewTalosEtcdConfig`. -/
def NewTalosEtcdConfig (image tag : String) (rootCa : Ptr PEMEncodedCertificateAndKey) :
    EtcdConfig :=
  { ContainerImage := newImage image tag
    RootCA := rootCa }

/-- The function `NewTalosKubeletConfig`. -/
def NewTalosKubeletConfig (image tag : String) : KubeletConfig :=
  { KubeletImage := newImage image tag
    KubeletExtraConfig :=
      { Object := some
          [ ("featureGates", GoAny.obj
              [ ("UserNamespacesSupport", GoAny.bool true),
                ("UserNamespacesPodSecurityStandards", GoAny.bool true) ]) ] } }

/-- The function `NewTalosClusterNetworkConfigCNI`. -/
def NewTalosClusterNetworkConfigCNI (cni : Ptr CNIConfig) (clusterDNS : String)
    (podSubnet serviceSubnet : Slice String) : ClusterNetworkConfig :=
  { CNI := cni
    DNSDomain := clusterDNS
    PodSubnet := podSubnet
    ServiceSubnet := serviceSubnet }

/-- The function `NewTalosClusterNetworkConfig`. -/
def NewTalosClusterNetworkConfig (clusterDNS : String)
    (podSubnet serviceSubnet : Slice String) : ClusterNetworkConfig :=
  { DNSDomain := clusterDNS
    PodSubnet := podSubnet
    ServiceSubnet := serviceSubnet }

/-- The function `NewTalosCNIConfigCustom`. -/
def NewTalosCNIConfigCustom (manifestUrls : Slice String) : CNIConfig :=
  { CNIName := "custom"
    CNIUrls := manifestUrls }

/-- The function `NewTalosCNINone`. -/
def NewTalosCNINone : CNIConfig :=
  { CNIName := "none"
    CNIUrls := some [] }

/-- The function `NewTalosCNIConfigCalico`. -/
def NewTalosCNIConfigCalico : CNIConfig :=
  NewTalosCNIConfigCustom
    (some ["https://raw.githubusercontent.com/projectcalico/calico/v3.29.2/manifests/calico.yaml"])

/-! ## The exported surface as one call type -/

/-- One call of an exported builder together with its arguments. -/
inductive Call where
  | nodeConfig (machine : Ptr MachineConfig) (cluster : Ptr ClusterConfig)
  | machineConfig (t : MachineType) (token hostname : String)
      (disks : Slice (Ptr MachineDisk)) (net : Ptr NetworkConfig)
      (install : Ptr InstallConfig) (kubelet : Ptr KubeletConfig)
      (registries : Ptr (GoMap String (Ptr RegistryConfig))) (url : String) (port : Nat)
      (kernelModules : Slice (Ptr KernelModuleConfig)) (udevRules : Slice String)
      (ca : Ptr PEMEncodedCertificateAndKey)
      (additionalCas : Slice (Ptr PEMEncodedCertificate))
  | networkConfig (hostname : String) (devices : Slice (Ptr Device))
      (nameservers searchDomains : Slice String)
  | nicFixedIP (iface : String) (addresses : Slice IP) (mtu : Nat)
  | nicVIP (iface : String) (sharedIP : IP) (mtu : Nat)
  | disk (dev : String) (partitions : Ptr (GoMap Nat String))
  | installConfig (image tag installDev : String) (kernelArgs : Slice String) (wipe : Bool)
  | registryBasicAuth (user password : String) (tlsSkipVerify : Bool)
  | diskEncryptionConfig (provider : EncryptionProvider)
  | clusterConfigControlplane (endpoint : Ptr URL)
      (name id secret bootstrapToken secretBoxKey : String)
      (net : Ptr ClusterNetworkConfig) (apiServer : Ptr APIServerConfig)
      (proxy : Ptr ProxyConfig) (controllerMgr : Ptr ControllerManagerConfig)
      (scheduler : Ptr SchedulerConfig) (etcd : Ptr EtcdConfig)
      (clusterCA clusterAggregatorCA : Ptr PEMEncodedCertificateAndKey)
      (svcAcct : Ptr PEMEncodedKey)
  | clusterConfigWorker (endpoint : Ptr URL) (name id secret bootstrapToken : String)
      (net : Ptr ClusterNetworkConfig) (clusterCA : Ptr PEMEncodedCertificateAndKey)
  | apiServerConfig (image tag : String) (endpoint : Ptr URL)
  | kubeProxyConfig (image tag : String)
  | controllerManagerConfig (image tag : String)
  | schedulerConfig (image tag : String)
  | etcdConfig (image tag : String) (rootCa : Ptr PEMEncodedCertificateAndKey)
  | kubeletConfig (image tag : String)
  | clusterNetworkConfigCNI (cni : Ptr CNIConfig) (clusterDNS : String)
      (podSubnet serviceSubnet : Slice String)
  | clusterNetworkConfig (clusterDNS : String) (podSubnet serviceSubnet : Slice String)
  | cniConfigCustom (manifestUrls : Slice String)
  | cniNone
  | cniConfigCalico

/-- The record a builder hands back, tagged by its type. -/
inductive Record where
  | config (r : Config)
  | machine (r : MachineConfig)
  | network (r : NetworkConfig)
  | device (r : Device)
  | machineDisk (r : MachineDisk)
  | install (r : InstallConfig)
  | registry (r : RegistryConfig)
  | encryption (r : EncryptionConfig)
  | cluster (r : ClusterConfig)
  | apiServer (r : APIServerConfig)
  | proxy (r : ProxyConfig)
  | controllerManager (r : ControllerManagerConfig)
  | scheduler (r : SchedulerConfig)
  | etcd (r : EtcdConfig)
  | kubelet (r : KubeletConfig)
  | clusterNetwork (r : ClusterNetworkConfig)
  | cni (r : CNIConfig)

/-- Outcome of a call: the record of the builder, or its panic. -/
def Call.run : Call → Except Panic Record
  | .nodeConfig machine cluster => .ok (.config (NewNodeConfig machine cluster))
  | .machineConfig t token hostname disks net install kubelet registries url port
      kernelModules udevRules ca additionalCas =>
    .ok (.machine (NewMachineConfig t token hostname disks net install kubelet registries
      url port kernelModules udevRules ca additionalCas))
  | .networkConfig hostname devices nameservers searchDomains =>
    .ok (.network (NewTalosNetworkConfig hostname devices nameservers searchDomains))
  | .nicFixedIP iface addresses mtu => .ok (.device (NewTalosNICFixedIP iface addresses mtu))
  | .nicVIP iface sharedIP mtu => .ok (.device (NewTalosNICVIP iface sharedIP mtu))
  | .disk dev partitions => .ok (.machineDisk (NewTalosDisk dev partitions))
  | .installConfig image tag installDev kernelArgs wipe =>
    .ok (.install (NewTalosInstallConfig image tag installDev kernelArgs wipe))
  | .registryBasicAuth user password tlsSkipVerify =>
    .ok (.registry (NewTalosRegistryBasicAuth user password tlsSkipVerify))
  | .diskEncryptionConfig provider => .ok (.encryption (NewTalosDiskEncryptionConfig provider))
  | .clusterConfigControlplane endpoint name id secret bootstrapToken secretBoxKey net
      apiServer proxy controllerMgr scheduler etcd clusterCA clusterAggregatorCA svcAcct =>
    .ok (.cluster (NewClusterConfigControlplane endpoint name id secret bootstrapToken
      secretBoxKey net apiServer proxy controllerMgr scheduler etcd clusterCA
      clusterAggregatorCA svcAcct))
  | .clusterConfigWorker endpoint name id secret bootstrapToken net clusterCA =>
    (NewClusterConfigWorker endpoint name id secret bootstrapToken net clusterCA).map
      Record.cluster
  | .apiServerConfig image tag endpoint =>
    (NewTalosAPIServerConfig image tag endpoint).map Record.apiServer
  | .kubeProxyConfig image tag => .ok (.proxy (NewTalosKubeProxyConfig image tag))
  | .controllerManagerConfig image tag =>
    .ok (.controllerManager (NewTalosControllerManagerConfig image tag))
  | .schedulerConfig image tag => .ok (.scheduler (NewTalosSchedulerConfig image tag))
  | .etcdConfig image tag rootCa => .ok (.etcd (NewTalosEtcdConfig image tag rootCa))
  | .kubeletConfig image tag => .ok (.kubelet (NewTalosKubeletConfig image tag))
  | .clusterNetworkConfigCNI cni clusterDNS podSubnet serviceSubnet =>
    .ok (.clusterNetwork (NewTalosClusterNetworkConfigCNI cni clusterDNS podSubnet
      serviceSubnet))
  | .clusterNetworkConfig clusterDNS podSubnet serviceSubnet =>
    .ok (.clusterNetwork (NewTalosClusterNetworkConfig clusterDNS podSubnet serviceSubnet))
  | .cniConfigCustom manifestUrls => .ok (.cni (NewTalosCNIConfigCustom manifestUrls))
  | .cniNone => .ok (.cni NewTalosCNINone)
  | .cniConfigCalico => .ok (.cni NewTalosCNIConfigCalico)

/-- A call reads through a nil pointer: the worker cluster builder with a nil
cluster CA, or the API-server builder with a nil endpoint. -/
def Call.dereferencesNil : Call → Bool
  | .clusterConfigWorker _ _ _ _ _ _ none => true
  | .apiServerConfig _ _ none => true
  | _ => false

/-- The call returned a record. -/
def returns {α : Type} (x : Except Panic α) : Bool :=
  match x with
  | .ok _ => true
  | .error _ => false

/-- A partition entry is non-nil and has the given size and mount point. -/
def hasSizeAndMountPoint (size : Nat) (mountPoint : String) (e : Ptr DiskPartition) : Bool :=
  match e with
  | some d => d.DiskSize = size && d.DiskMountPoint = mountPoint
  | none => false

/-- Pieces of a character list between occurrences of a separator. -/
def splitOnChar (sep : Char) : List Char → List (List Char)
  | [] => [[]]
  | c :: rest =>
    match splitOnChar sep rest with
    | [] => [[]]
    | piece :: pieces => if c = sep then [] :: piece :: pieces else (c :: piece) :: pieces

/-- The settings a `feature-gates` argument value spells out: the value is a
comma-separated list of `Gate=value` items. -/
def featureGateSettings (value : String) : List (String × String) :=
  (splitOnChar ',' value.data).map (fun item =>
    (String.mk (item.takeWhile (fun c => c ≠ '=')),
     String.mk ((item.dropWhile (fun c => c ≠ '=')).drop 1)))

/-! ## Verification -/

/-- The two loops of the module build, by appending, the image of the input
list. -/
theorem foldl_append_singleton {α β : Type} (f : α → β) (xs : List α) (acc : List β) :
    xs.foldl (fun acc x => acc ++ [f x]) acc = acc ++ xs.map f := by
  induction xs generalizing acc with
  | nil => simp
  | cons x xs ih => simp [ih]

/-- C1: for every endpoint, name, id, secret, bootstrap token, network config
and every non-nil cluster CA record, `NewClusterConfigWorker` returns a cluster
record whose `ClusterCA` holds the certificate bytes of the supplied record and
a nil key; the returned record is the same whatever key bytes the supplied
record carries, so the private key does not reach the output. -/
theorem c1_worker_drops_private_key (endpoint : Ptr URL)
    (name id secret bootstrapToken : String) (net : Ptr ClusterNetworkConfig)
    (ca : PEMEncodedCertificateAndKey) :
    (∃ r, NewClusterConfigWorker endpoint name id secret bootstrapToken net (some ca)
          = Except.ok r
        ∧ r.ClusterCA = some { Crt := ca.Crt, Key := none })
    ∧ ∀ key : Slice Byte,
        NewClusterConfigWorker endpoint name id secret bootstrapToken net
            (some { Crt := ca.Crt, Key := key })
          = NewClusterConfigWorker endpoint name id secret bootstrapToken net (some ca) :=
  ⟨⟨_, rfl, rfl⟩, fun _ => rfl⟩

/-- C2 (as stated, refuted): for the worker role and otherwise zero arguments,
the two `Disabled` flags of the control-plane block are not both true. -/
theorem c2_disabled_flags_not_true :
    ¬ (∃ cm sch,
        (NewMachineConfig Worker "" "" none none none none none "" 0 none none none
            none).MachineControlPlane
          = some { MachineControllerManager := some cm, MachineScheduler := some sch }
        ∧ cm.MachineControllerManagerDisabled = some true
        ∧ sch.MachineSchedulerDisabled = some true) := by
  rintro ⟨cm, sch, h, hcm, -⟩
  simp only [NewMachineConfig, Option.some.injEq, MachineControlPlaneConfig.mk.injEq] at h
  rw [← h.1] at hcm
  simp at hcm

/-- C2 (amended): for every combination of arguments, the machine record
returned by `NewMachineConfig` has a control-plane block in which the
controller-manager and scheduler sub-records are both present and their
`Disabled` flags are both present and both false. -/
theorem c2_disabled_flags_false (t : MachineType) (token hostname : String)
    (disks : Slice (Ptr MachineDisk)) (net : Ptr NetworkConfig)
    (install : Ptr InstallConfig) (kubelet : Ptr KubeletConfig)
    (registries : Ptr (GoMap String (Ptr RegistryConfig))) (url : String) (port : Nat)
    (kernelModules : Slice (Ptr KernelModuleConfig)) (udevRules : Slice String)
    (ca : Ptr PEMEncodedCertificateAndKey)
    (additionalCas : Slice (Ptr PEMEncodedCertificate)) :
    (NewMachineConfig t token hostname disks net install kubelet registries url port
        kernelModules udevRules ca additionalCas).MachineControlPlane
      = some
          { MachineControllerManager := some { MachineControllerManagerDisabled := some false }
            MachineScheduler := some { MachineSchedulerDisabled := some false } } :=
  rfl

/-- C3 (as stated, refuted): with a nil cluster CA the worker cluster builder
panics, and with a nil endpoint the API-server builder panics; neither returns
a record. -/
theorem c3_nil_argument_panics :
    NewClusterConfigWorker none "" "" "" "" none none
        = Except.error Panic.nilPointerDereference
    ∧ NewTalosAPIServerConfig "" "" none = Except.error Panic.nilPointerDereference
    ∧ returns (Call.run (Call.clusterConfigWorker none "" "" "" "" none none)) = false
    ∧ returns (Call.run (Call.apiServerConfig "" "" none)) = false :=
  ⟨rfl, rfl, rfl, rfl⟩

/-- C3 (amended): every call of an exported builder returns a record, except
that `NewClusterConfigWorker` panics when its cluster CA is nil and
`NewTalosAPIServerConfig` panics when its endpoint is nil; these two return a
record exactly when that argument is non-nil, whatever the other arguments
(nil pointers, nil slices and nil maps included). -/
theorem c3_returns_unless_nil_dereferenced :
    (∀ c : Call, returns c.run = !c.dereferencesNil)
    ∧ (∀ (endpoint : Ptr URL) (name id secret bootstrapToken : String)
        (net : Ptr ClusterNetworkConfig) (clusterCA : Ptr PEMEncodedCertificateAndKey),
        returns (NewClusterConfigWorker endpoint name id secret bootstrapToken net clusterCA)
          = clusterCA.isSome)
    ∧ (∀ (image tag : String) (endpoint : Ptr URL),
        returns (NewTalosAPIServerConfig image tag endpoint) = endpoint.isSome) := by
  refine ⟨?_, ?_, ?_⟩
  · intro c
    cases c with
    | clusterConfigWorker endpoint name id secret bootstrapToken net clusterCA =>
      cases clusterCA <;> rfl
    | apiServerConfig image tag endpoint => cases endpoint <;> rfl
    | _ => rfl
  · intro endpoint name id secret bootstrapToken net clusterCA
    cases clusterCA <;> rfl
  · intro image tag endpoint
    cases endpoint <;> rfl

/-- C4: `newImage image tag` is the characters of `image`, then one colon, then
the characters of `tag`, for all strings (no validation: the pair nginx, 1.2.3
gives nginx:1.2.3 and two empty strings give a lone colon); and the image field
of the record of each of the install, API-server, kube-proxy,
controller-manager, scheduler, etcd and kubelet builders is `newImage image
tag`.  The API-server builder is covered for every endpoint: it either returns
a record with that image, or the endpoint is nil. -/
theorem c4_image_string (image tag installDev : String) (kernelArgs : Slice String)
    (wipe : Bool) (endpoint : Ptr URL) (rootCa : Ptr PEMEncodedCertificateAndKey) :
    newImage image tag = image ++ ":" ++ tag
    ∧ (newImage image tag).data = image.data ++ ':' :: tag.data
    ∧ newImage "nginx" "1.2.3" = "nginx:1.2.3"
    ∧ newImage "" "" = ":"
    ∧ (NewTalosInstallConfig image tag installDev kernelArgs wipe).InstallImage
        = newImage image tag
    ∧ (match NewTalosAPIServerConfig image tag endpoint with
        | Except.ok r => r.ContainerImage = newImage image tag
        | Except.error _ => endpoint = none)
    ∧ (NewTalosKubeProxyConfig image tag).ContainerImage = newImage image tag
    ∧ (NewTalosControllerManagerConfig image tag).ContainerImage = newImage image tag
    ∧ (NewTalosSchedulerConfig image tag).ContainerImage = newImage image tag
    ∧ (NewTalosEtcdConfig image tag rootCa).ContainerImage = newImage image tag
    ∧ (NewTalosKubeletConfig image tag).KubeletImage = newImage image tag := by
  refine ⟨rfl, ?_, by decide, by decide, rfl, ?_, rfl, rfl, rfl, rfl, rfl⟩
  · simp [newImage, String.data_append]
  · cases endpoint <;> rfl

/-- The pairs a `range` statement visits have pairwise distinct keys. -/
theorem rangeMap_nodupKeys {κ ν : Type} (m : Ptr (GoMap κ ν)) :
    ((rangeMap m).map Prod.fst).Nodup := by
  cases m with
  | none => simp [rangeMap]
  | some g => exact g.nodupKeys

/-- The partition record built from a visited pair determines the pair. -/
theorem partitionOfPair_injective :
    Function.Injective
      (fun p : Nat × String =>
        (some { DiskSize := p.1, DiskMountPoint := p.2 } : Ptr DiskPartition)) := by
  rintro ⟨a, b⟩ ⟨c, d⟩ h
  simp only [Option.some.injEq, DiskPartition.mk.injEq] at h
  exact Prod.ext h.1 h.2

/-- In the image of a list of pairs with distinct keys, exactly one entry has
the size and mount point of a given pair of the list. -/
theorem countP_hasSizeAndMountPoint (l : List (Nat × String))
    (hnodup : (l.map Prod.fst).Nodup) (size : Nat) (mountPoint : String)
    (hmem : (size, mountPoint) ∈ l) :
    (l.map (fun p => (some { DiskSize := p.1, DiskMountPoint := p.2 } : Ptr DiskPartition))).countP
        (hasSizeAndMountPoint size mountPoint) = 1 := by
  induction l with
  | nil => simp at hmem
  | cons p l ih =>
    obtain ⟨a, b⟩ := p
    simp only [List.map_cons, List.nodup_cons] at hnodup
    obtain ⟨hnot, hrest⟩ := hnodup
    rw [List.map_cons, List.countP_cons]
    rcases List.mem_cons.mp hmem with heq | htail
    · obtain ⟨rfl, rfl⟩ := Prod.mk.inj heq
      have hzero :
          (l.map (fun p =>
            (some { DiskSize := p.1, DiskMountPoint := p.2 } : Ptr DiskPartition))).countP
              (hasSizeAndMountPoint size mountPoint) = 0 := by
        rw [List.countP_eq_zero]
        intro e he
        obtain ⟨q, hq, rfl⟩ := List.mem_map.mp he
        have hkey : q.1 ≠ size := fun h => hnot (h ▸ List.mem_map.mpr ⟨q, hq, rfl⟩)
        simp [hasSizeAndMountPoint, hkey]
      simp [hzero, hasSizeAndMountPoint]
    · have hkey : a ≠ size := fun h => hnot (h ▸ List.mem_map.mpr ⟨(size, mountPoint), htail, rfl⟩)
      simp [ih hrest htail, hasSizeAndMountPoint, hkey]

/-- The partition list of `NewTalosDisk` is the image of the visited pairs, in
visiting order. -/
theorem newTalosDisk_partitions (dev : String) (partitions : Ptr (GoMap Nat String)) :
    (NewTalosDisk dev partitions).DiskPartitions
      = some ((rangeMap partitions).map
          (fun p => (some { DiskSize := p.1, DiskMountPoint := p.2 } : Ptr DiskPartition))) := by
  simp [NewTalosDisk, foldl_append_singleton]

/-- The address list of `NewTalosNICFixedIP` is the image of the input
addresses, in input order. -/
theorem newTalosNICFixedIP_addresses (iface : String) (addresses : Slice IP) (mtu : Nat) :
    (NewTalosNICFixedIP iface addresses mtu).DeviceAddresses
      = some ((Slice.elems addresses).map IP.String) := by
  simp [NewTalosNICFixedIP, foldl_append_singleton]

/-- A disk with two partitions, visited in the order written. -/
theorem newTalosDisk_two_partitions :
    NewTalosDisk "/dev/sdb" (some ⟨[(1024, "/var/a"), (2048, "/var/b")], by decide⟩)
      = { DeviceName := "/dev/sdb"
          DiskPartitions := some
            [ some { DiskSize := 1024, DiskMountPoint := "/var/a" },
              some { DiskSize := 2048, DiskMountPoint := "/var/b" } ] } := by
  decide

/-- C5: for every device path and every mapping from size to mount point (nil
included, and whatever order the map is visited in), the disk returned by
`NewTalosDisk` carries the device path and a non-nil partition sequence with as
many entries as the mapping has keys; every pair of the mapping has exactly one
entry with its size and mount point, and every entry comes from a pair of the
mapping. -/
theorem c5_disk_partitions_match_mapping (dev : String)
    (partitions : Ptr (GoMap Nat String)) :
    (NewTalosDisk dev partitions).DeviceName = dev
    ∧ ∃ out : List (Ptr DiskPartition),
        (NewTalosDisk dev partitions).DiskPartitions = some out
        ∧ out.length = lenMap partitions
        ∧ out.length = ((rangeMap partitions).map Prod.fst).toFinset.card
        ∧ (∀ size mountPoint, (size, mountPoint) ∈ rangeMap partitions →
            out.countP (hasSizeAndMountPoint size mountPoint) = 1)
        ∧ (∀ e ∈ out, ∃ size mountPoint, (size, mountPoint) ∈ rangeMap partitions
            ∧ e = some { DiskSize := size, DiskMountPoint := mountPoint }) := by
  refine ⟨rfl, _, newTalosDisk_partitions dev partitions, ?_, ?_, ?_, ?_⟩
  · simp [lenMap]
  · rw [List.toFinset_card_of_nodup (rangeMap_nodupKeys partitions)]
    simp
  · intro size mountPoint hmem
    exact countP_hasSizeAndMountPoint _ (rangeMap_nodupKeys partitions) size mountPoint hmem
  · intro e he
    obtain ⟨p, hp, rfl⟩ := List.mem_map.mp he
    exact ⟨p.1, p.2, hp, rfl⟩

/-- C6: for every interface name, address list (nil included) and MTU,
`NewTalosNICFixedIP` returns a device with the given interface name and a
non-nil address list of the same length as the input whose i-th element is the
text of the i-th input address; the call with eth0, the addresses 10.0.0.5 and
10.0.0.6 (in 4-byte or in 16-byte form) and 1500 gives name eth0, those two
texts in order, and MTU 1500. -/
theorem c6_fixed_ip_addresses_in_order (iface : String) (addresses : Slice IP) (mtu : Nat) :
    (NewTalosNICFixedIP iface addresses mtu).DeviceInterface = iface
    ∧ (∃ out : List String,
        (NewTalosNICFixedIP iface addresses mtu).DeviceAddresses = some out
        ∧ out.length = Slice.len addresses
        ∧ (∀ i : Nat, out[i]? = ((Slice.elems addresses)[i]?).map IP.String)
        ∧ out = (Slice.elems addresses).map IP.String)
    ∧ NewTalosNICFixedIP "eth0" (some [some [10, 0, 0, 5], some [10, 0, 0, 6]]) 1500
        = { DeviceInterface := "eth0"
            DeviceAddresses := some ["10.0.0.5", "10.0.0.6"]
            DeviceMTU := 1500
            DeviceVIPConfig := none }
    ∧ (NewTalosNICFixedIP "eth0"
          (some [some [0, 0, 0, 0, 0, 0, 0, 0, 0, 0, 255, 255, 10, 0, 0, 5],
                 some [0, 0, 0, 0, 0, 0, 0, 0, 0, 0, 255, 255, 10, 0, 0, 6]]) 1500).DeviceAddresses
        = some ["10.0.0.5", "10.0.0.6"] := by
  refine ⟨rfl, ⟨_, newTalosNICFixedIP_addresses iface addresses mtu, ?_, ?_, rfl⟩,
    by decide, by decide⟩
  · simp [Slice.len]
  · intro i
    simp

/-- C7: the Calico builder is the custom builder applied to the one-element
list holding the pinned Calico manifest URL, so its name is custom and its URL
list is that single URL; and for every list of URLs the custom builder returns
the name custom and the given list. -/
theorem c7_calico_is_custom (urls : Slice String) :
    NewTalosCNIConfigCalico
        = NewTalosCNIConfigCustom
            (some ["https://raw.githubusercontent.com/projectcalico/calico/v3.29.2/manifests/calico.yaml"])
    ∧ NewTalosCNIConfigCalico.CNIName = "custom"
    ∧ NewTalosCNIConfigCalico.CNIUrls
        = some ["https://raw.githubusercontent.com/projectcalico/calico/v3.29.2/manifests/calico.yaml"]
    ∧ (NewTalosCNIConfigCustom urls).CNIName = "custom"
    ∧ (NewTalosCNIConfigCustom urls).CNIUrls = urls :=
  ⟨rfl, rfl, rfl, rfl, rfl⟩

/-- C8: there is one admission-control list, with exactly one entry, named
PodSecurity, whose configuration body has under exemptions a namespaces list
equal to the single name kube-system, and for every image, tag and non-nil
endpoint `NewTalosAPIServerConfig` returns a record with that list. -/
theorem c8_admission_control_single_pod_security :
    ∃ (plugin : AdmissionPluginConfig) (body : List (String × GoAny)),
      plugin.PluginName = "PodSecurity"
      ∧ plugin.PluginConfiguration.Object = some body
      ∧ (GoAny.lookup "exemptions" body).bind (GoAny.field "namespaces")
          = some (GoAny.strs (some ["kube-system"]))
      ∧ ∀ (image tag : String) (endpoint : URL),
          ∃ r, NewTalosAPIServerConfig image tag (some endpoint) = Except.ok r
            ∧ r.AdmissionControlConfig = some [some plugin] :=
  ⟨{ PluginName := "PodSecurity"
     PluginConfiguration := { Object := some podSecurityConfiguration } },
    podSecurityConfiguration, rfl, rfl, by simp [podSecurityConfiguration, GoAny.lookup, GoAny.field],
    fun _ _ _ => ⟨_, rfl, rfl⟩⟩

/-- C9: for every hostname, device list, nameserver list and search-domain
list, the record returned by `NewTalosNetworkConfig` has a KubeSpan block that
is present with its enabled flag present and false, an extra-host list that is
non-nil and empty, and the hostname, devices, nameservers and search domains
as given. -/
theorem c9_network_config (hostname : String) (devices : Slice (Ptr Device))
    (nameservers searchDomains : Slice String) :
    (NewTalosNetworkConfig hostname devices nameservers searchDomains).NetworkKubeSpan
        = some { KubeSpanEnabled := some false }
    ∧ (NewTalosNetworkConfig hostname devices nameservers searchDomains).ExtraHostEntries
        = some []
    ∧ (NewTalosNetworkConfig hostname devices nameservers searchDomains).NetworkHostname
        = hostname
    ∧ (NewTalosNetworkConfig hostname devices nameservers searchDomains).NetworkInterfaces
        = devices
    ∧ (NewTalosNetworkConfig hostname devices nameservers searchDomains).NameServers
        = nameservers
    ∧ (NewTalosNetworkConfig hostname devices nameservers searchDomains).Searches
        = searchDomains :=
  ⟨rfl, rfl, rfl, rfl, rfl, rfl⟩

/-- C10: for every image, tag, install device, kernel-argument list and wipe
flag, the record returned by `NewTalosInstallConfig` has the legacy-BIOS flag
present and false, the wipe flag present and equal to the argument, the install
disk equal to the install device and the extra kernel arguments equal to the
given list. -/
theorem c10_install_config (image tag installDev : String) (kernelArgs : Slice String)
    (wipe : Bool) :
    (NewTalosInstallConfig image tag installDev kernelArgs wipe).InstallLegacyBIOSSupport
        = some false
    ∧ (NewTalosInstallConfig image tag installDev kernelArgs wipe).InstallWipe = some wipe
    ∧ (NewTalosInstallConfig image tag installDev kernelArgs wipe).InstallDisk = installDev
    ∧ (NewTalosInstallConfig image tag installDev kernelArgs wipe).InstallExtraKernelArgs
        = kernelArgs :=
  ⟨rfl, rfl, rfl, rfl⟩

/-- C11 (as stated, refuted): two calls of `NewMachineConfig` that differ only
in the join token return different machine records. -/
theorem c11_token_changes_record :
    NewMachineConfig Worker "token-a" "" none none none none none "" 0 none none none none
      ≠ NewMachineConfig Worker "token-b" "" none none none none none "" 0 none none none
          none := by
  intro h
  have htoken := congrArg MachineConfig.MachineToken h
  exact absurd htoken (by decide)

/-- C11 (amended): the join token is wired into the returned record as its
`MachineToken`; for any two join tokens and otherwise identical arguments the
two machine records agree on every field other than `MachineToken`, and they
are equal exactly when the tokens are equal. -/
theorem c11_token_stored_in_machine_token (t : MachineType)
    (token token2 hostname : String)
    (disks : Slice (Ptr MachineDisk)) (net : Ptr NetworkConfig)
    (install : Ptr InstallConfig) (kubelet : Ptr KubeletConfig)
    (registries : Ptr (GoMap String (Ptr RegistryConfig))) (url : String) (port : Nat)
    (kernelModules : Slice (Ptr KernelModuleConfig)) (udevRules : Slice String)
    (ca : Ptr PEMEncodedCertificateAndKey)
    (additionalCas : Slice (Ptr PEMEncodedCertificate)) :
    (NewMachineConfig t token hostname disks net install kubelet registries url port
        kernelModules udevRules ca additionalCas).MachineToken = token
    ∧ { NewMachineConfig t token hostname disks net install kubelet registries url port
          kernelModules udevRules ca additionalCas with MachineToken := token2 }
        = NewMachineConfig t token2 hostname disks net install kubelet registries url port
            kernelModules udevRules ca additionalCas
    ∧ (NewMachineConfig t token hostname disks net install kubelet registries url port
          kernelModules udevRules ca additionalCas
        = NewMachineConfig t token2 hostname disks net install kubelet registries url port
            kernelModules udevRules ca additionalCas
        ↔ token = token2) := by
  refine ⟨rfl, rfl, ?_, ?_⟩
  · intro h
    exact congrArg MachineConfig.MachineToken h
  · intro h
    rw [h]

/-- C12: the hostname, endpoint URL and endpoint port arguments of
`NewMachineConfig` do not influence its result: two argument tuples that
differ only in these three give equal machine records. -/
theorem c12_hostname_url_port_unused (t : MachineType) (token : String)
    (hostname hostname2 : String)
    (disks : Slice (Ptr MachineDisk)) (net : Ptr NetworkConfig)
    (install : Ptr InstallConfig) (kubelet : Ptr KubeletConfig)
    (registries : Ptr (GoMap String (Ptr RegistryConfig))) (url url2 : String)
    (port port2 : Nat)
    (kernelModules : Slice (Ptr KernelModuleConfig)) (udevRules : Slice String)
    (ca : Ptr PEMEncodedCertificateAndKey)
    (additionalCas : Slice (Ptr PEMEncodedCertificate)) :
    NewMachineConfig t token hostname disks net install kubelet registries url port
        kernelModules udevRules ca additionalCas
      = NewMachineConfig t token hostname2 disks net install kubelet registries url2 port2
          kernelModules udevRules ca additionalCas :=
  rfl

/-- C13: for every combination of arguments, the machine record returned by
`NewMachineConfig` has a time block that is present with its disabled flag
present and false, node annotations and node taints that are non-nil and
empty, the supplied registries mapping under its registries block, the role
string as machine type (worker for `Worker`, controlplane for `ControlPlane`),
and the disks, network, install, kubelet, CA, accepted CAs, kernel modules and
udev rules as given. -/
theorem c13_machine_config_fields (t : MachineType) (token hostname : String)
    (disks : Slice (Ptr MachineDisk)) (net : Ptr NetworkConfig)
    (install : Ptr InstallConfig) (kubelet : Ptr KubeletConfig)
    (registries : Ptr (GoMap String (Ptr RegistryConfig))) (url : String) (port : Nat)
    (kernelModules : Slice (Ptr KernelModuleConfig)) (udevRules : Slice String)
    (ca : Ptr PEMEncodedCertificateAndKey)
    (additionalCas : Slice (Ptr PEMEncodedCertificate)) :
    (NewMachineConfig t token hostname disks net install kubelet registries url port
        kernelModules udevRules ca additionalCas).MachineTime
        = some { TimeDisabled := some false }
    ∧ (∃ m, (NewMachineConfig t token hostname disks net install kubelet registries url port
          kernelModules udevRules ca additionalCas).MachineNodeAnnotations = some m
        ∧ m.entries = [])
    ∧ (∃ m, (NewMachineConfig t token hostname disks net install kubelet registries url port
          kernelModules udevRules ca additionalCas).MachineNodeTaints = some m
        ∧ m.entries = [])
    ∧ (NewMachineConfig t token hostname disks net install kubelet registries url port
        kernelModules udevRules ca additionalCas).MachineRegistries.RegistryConfig
        = registries
    ∧ (NewMachineConfig t token hostname disks net install kubelet registries url port
        kernelModules udevRules ca additionalCas).MachineType = t
    ∧ (NewMachineConfig Worker token hostname disks net install kubelet registries url port
        kernelModules udevRules ca additionalCas).MachineType = "worker"
    ∧ (NewMachineConfig ControlPlane token hostname disks net install kubelet registries url
        port kernelModules udevRules ca additionalCas).MachineType = "controlplane"
    ∧ (NewMachineConfig t token hostname disks net install kubelet registries url port
        kernelModules udevRules ca additionalCas).MachineDisks = disks
    ∧ (NewMachineConfig t token hostname disks net install kubelet registries url port
        kernelModules udevRules ca additionalCas).MachineNetwork = net
    ∧ (NewMachineConfig t token hostname disks net install kubelet registries url port
        kernelModules udevRules ca additionalCas).MachineInstall = install
    ∧ (NewMachineConfig t token hostname disks net install kubelet registries url port
        kernelModules udevRules ca additionalCas).MachineKubelet = kubelet
    ∧ (NewMachineConfig t token hostname disks net install kubelet registries url port
        kernelModules udevRules ca additionalCas).MachineCA = ca
    ∧ (NewMachineConfig t token hostname disks net install kubelet registries url port
        kernelModules udevRules ca additionalCas).MachineAcceptedCAs = additionalCas
    ∧ (NewMachineConfig t token hostname disks net install kubelet registries url port
        kernelModules udevRules ca additionalCas).MachineKernel
        = some { KernelModules := kernelModules }
    ∧ (NewMachineConfig t token hostname disks net install kubelet registries url port
        kernelModules udevRules ca additionalCas).MachineUdev
        = some { UdevRules := udevRules } :=
  ⟨rfl, ⟨_, rfl, rfl⟩, ⟨_, rfl, rfl⟩, rfl, rfl, rfl, rfl, rfl, rfl, rfl, rfl, rfl, rfl, rfl,
    rfl⟩

/-- C14: for every image, tag and non-nil endpoint, `NewTalosAPIServerConfig`
returns a record whose certificate SANs are the one-element list holding the
endpoint's host name, whose extra-args mapping has exactly one key,
feature-gates, with a value that sets the gates UserNamespacesSupport and
UserNamespacesPodSecurityStandards to true, whose pod-security-policy disable
flag is present and true, and whose audit policy is unset. -/
theorem c14_api_server_fields (image tag : String) (endpoint : URL) :
    ∃ r, NewTalosAPIServerConfig image tag (some endpoint) = Except.ok r
      ∧ r.CertSANs = some [URL.Hostname endpoint]
      ∧ (∃ (m : GoMap String String) (value : String),
          r.ExtraArgsConfig = some m
          ∧ m.entries = [("feature-gates", value)]
          ∧ value = "UserNamespacesSupport=true,UserNamespacesPodSecurityStandards=true"
          ∧ featureGateSettings value
              = [("UserNamespacesSupport", "true"),
                 ("UserNamespacesPodSecurityStandards", "true")])
      ∧ r.DisablePodSecurityPolicyConfig = some true
      ∧ r.AuditPolicyConfig.Object = none :=
  ⟨_, rfl, rfl, ⟨_, _, rfl, rfl, rfl, by decide⟩, rfl, rfl⟩

/-- On an unsigned 64-bit value the conversion to a signed integer keeps the
value below 2^63 and subtracts 2^64 from there on. -/
theorem uintToInt_of_lt (u : Nat) (hu : u < 2 ^ 64) :
    uintToInt u = if u < 2 ^ 63 then (u : Int) else (u : Int) - 2 ^ 64 := by
  unfold uintToInt
  rw [Nat.mod_eq_of_lt hu]

/-- C15: for all arguments, the cluster record returned by
`NewClusterConfigControlplane` has extra manifests non-nil and empty, extra
manifest headers non-nil and empty, an empty inline-manifest set, the endpoint
argument under its control-plane endpoint, and every other supplied argument
unchanged in its field; the cluster CA and the aggregator CA are the supplied
records, key bytes included. -/
theorem c15_controlplane_cluster_config (endpoint : Ptr URL)
    (name id secret bootstrapToken secretBoxKey : String)
    (net : Ptr ClusterNetworkConfig) (apiServer : Ptr APIServerConfig)
    (proxy : Ptr ProxyConfig) (controllerMgr : Ptr ControllerManagerConfig)
    (scheduler : Ptr SchedulerConfig) (etcd : Ptr EtcdConfig)
    (clusterCA clusterAggregatorCA : Ptr PEMEncodedCertificateAndKey)
    (svcAcct : Ptr PEMEncodedKey) :
    ∃ r, r = NewClusterConfigControlplane endpoint name id secret bootstrapToken
          secretBoxKey net apiServer proxy controllerMgr scheduler etcd clusterCA
          clusterAggregatorCA svcAcct
      ∧ r.ExtraManifests = some []
      ∧ (∃ m, r.ExtraManifestHeaders = some m ∧ m.entries = [])
      ∧ r.ClusterInlineManifests = some []
      ∧ r.ControlPlane = some { Endpoint := some { URL := endpoint } }
      ∧ r.ClusterName = name
      ∧ r.ClusterID = id
      ∧ r.ClusterSecret = secret
      ∧ r.BootstrapToken = bootstrapToken
      ∧ r.ClusterSecretboxEncryptionSecret = secretBoxKey
      ∧ r.ClusterNetwork = net
      ∧ r.APIServerConfig = apiServer
      ∧ r.ProxyConfig = proxy
      ∧ r.ControllerManagerConfig = controllerMgr
      ∧ r.SchedulerConfig = scheduler
      ∧ r.EtcdConfig = etcd
      ∧ r.ClusterServiceAccount = svcAcct
      ∧ r.ClusterCA = clusterCA
      ∧ r.ClusterAggregatorCA = clusterAggregatorCA
      ∧ r.ClusterCA.map PEMEncodedCertificateAndKey.Key
          = clusterCA.map PEMEncodedCertificateAndKey.Key
      ∧ r.ClusterAggregatorCA.map PEMEncodedCertificateAndKey.Key
          = clusterAggregatorCA.map PEMEncodedCertificateAndKey.Key :=
  ⟨_, rfl, rfl, ⟨_, rfl, rfl⟩, rfl, rfl, rfl, rfl, rfl, rfl, rfl, rfl, rfl, rfl, rfl, rfl,
    rfl, rfl, rfl, rfl, rfl, rfl⟩

/-- C16: for all arguments with a non-nil worker CA, `NewClusterConfigWorker`
returns a record that agrees with the record of `NewClusterConfigControlplane`
for the same endpoint, name, id, secret, token and network on cluster name,
cluster id, cluster secret, bootstrap token, cluster network, control-plane
endpoint, extra manifests, extra manifest headers and inline manifests, while
its API-server, proxy, controller-manager, scheduler and etcd sub-configs, its
aggregator CA and its service-account key are nil and its secretbox encryption
secret is the empty string. -/
theorem c16_worker_agrees_with_controlplane (endpoint : Ptr URL)
    (name id secret bootstrapToken secretBoxKey : String)
    (net : Ptr ClusterNetworkConfig) (apiServer : Ptr APIServerConfig)
    (proxy : Ptr ProxyConfig) (controllerMgr : Ptr ControllerManagerConfig)
    (scheduler : Ptr SchedulerConfig) (etcd : Ptr EtcdConfig)
    (clusterCA clusterAggregatorCA : Ptr PEMEncodedCertificateAndKey)
    (svcAcct : Ptr PEMEncodedKey) (workerCA : PEMEncodedCertificateAndKey) :
    ∃ w cp,
      NewClusterConfigWorker endpoint name id secret bootstrapToken net (some workerCA)
        = Except.ok w
      ∧ cp = NewClusterConfigControlplane endpoint name id secret bootstrapToken
          secretBoxKey net apiServer proxy controllerMgr scheduler etcd clusterCA
          clusterAggregatorCA svcAcct
      ∧ w.ClusterName = cp.ClusterName
      ∧ w.ClusterID = cp.ClusterID
      ∧ w.ClusterSecret = cp.ClusterSecret
      ∧ w.BootstrapToken = cp.BootstrapToken
      ∧ w.ClusterNetwork = cp.ClusterNetwork
      ∧ w.ControlPlane = cp.ControlPlane
      ∧ w.ExtraManifests = cp.ExtraManifests
      ∧ w.ExtraManifestHeaders = cp.ExtraManifestHeaders
      ∧ w.ClusterInlineManifests = cp.ClusterInlineManifests
      ∧ w.APIServerConfig = none
      ∧ w.ProxyConfig = none
      ∧ w.ControllerManagerConfig = none
      ∧ w.SchedulerConfig = none
      ∧ w.EtcdConfig = none
      ∧ w.ClusterAggregatorCA = none
      ∧ w.ClusterServiceAccount = none
      ∧ w.ClusterSecretboxEncryptionSecret = "" :=
  ⟨_, _, rfl, rfl, rfl, rfl, rfl, rfl, rfl, rfl, rfl, rfl, rfl, rfl, rfl, rfl, rfl, rfl, rfl,
    rfl, rfl⟩

/-- C17: for all inputs, `NewTalosNICFixedIP` returns a device with no VIP
block and a non-nil address list, which is the empty list when the input list
is nil or empty; `NewTalosNICVIP` returns a device with a VIP block whose
shared IP is the text of the given address, with the given interface name and
a nil address list. -/
theorem c17_interface_builders_shape (iface : String) (addresses : Slice IP)
    (sharedIP : IP) (mtu : Nat) :
    (NewTalosNICFixedIP iface addresses mtu).DeviceVIPConfig = none
    ∧ (∃ out, (NewTalosNICFixedIP iface addresses mtu).DeviceAddresses = some out)
    ∧ (NewTalosNICFixedIP iface none mtu).DeviceAddresses = some []
    ∧ (NewTalosNICFixedIP iface (some []) mtu).DeviceAddresses = some []
    ∧ (NewTalosNICVIP iface sharedIP mtu).DeviceVIPConfig
        = some { SharedIP := IP.String sharedIP }
    ∧ (NewTalosNICVIP iface sharedIP mtu).DeviceInterface = iface
    ∧ (NewTalosNICVIP iface sharedIP mtu).DeviceAddresses = none :=
  ⟨rfl, ⟨_, rfl⟩, rfl, rfl, rfl, rfl, rfl⟩

/-- C18: both interface builders store an unsigned 64-bit MTU through the
conversion to a signed integer: below 2^63 the `DeviceMTU` field equals the
MTU, from 2^63 on it equals the MTU minus 2^64, a negative number; so the field
equals the MTU exactly when the MTU is below 2^63. -/
theorem c18_mtu_signed_conversion (iface : String) (addresses : Slice IP)
    (sharedIP : IP) (mtu : Nat) (hmtu : mtu < 2 ^ 64) :
    (NewTalosNICVIP iface sharedIP mtu).DeviceMTU
        = (NewTalosNICFixedIP iface addresses mtu).DeviceMTU
    ∧ (mtu < 2 ^ 63 → (NewTalosNICFixedIP iface addresses mtu).DeviceMTU = (mtu : Int))
    ∧ (2 ^ 63 ≤ mtu →
        (NewTalosNICFixedIP iface addresses mtu).DeviceMTU = (mtu : Int) - 2 ^ 64
        ∧ (NewTalosNICFixedIP iface addresses mtu).DeviceMTU < 0)
    ∧ ((NewTalosNICFixedIP iface addresses mtu).DeviceMTU = (mtu : Int) ↔ mtu < 2 ^ 63)
    ∧ ((NewTalosNICVIP iface sharedIP mtu).DeviceMTU = (mtu : Int) ↔ mtu < 2 ^ 63) := by
  have hfixed : (NewTalosNICFixedIP iface addresses mtu).DeviceMTU = uintToInt mtu := rfl
  have hvip : (NewTalosNICVIP iface sharedIP mtu).DeviceMTU = uintToInt mtu := rfl
  rw [hfixed, hvip, uintToInt_of_lt mtu hmtu]
  refine ⟨rfl, ?_, ?_, ?_, ?_⟩
  · intro hlt
    rw [if_pos hlt]
  · intro hge
    rw [if_neg (by omega)]
    constructor
    · rfl
    · omega
  · constructor
    · intro h
      by_contra hge
      rw [if_neg hge] at h
      omega
    · intro hlt
      rw [if_pos hlt]
  · constructor
    · intro h
      by_contra hge
      rw [if_neg hge] at h
      omega
    · intro hlt
      rw [if_pos hlt]

/-- C18 at concrete MTUs: 1500 is stored as 1500, and the largest unsigned
value 2^64 - 1 is stored as -1 by both builders. -/
theorem c18_mtu_signed_conversion_witness :
    (1500 : Nat) < 2 ^ 64
    ∧ (18446744073709551615 : Nat) < 2 ^ 64
    ∧ (NewTalosNICFixedIP "eth0" none 1500).DeviceMTU = 1500
    ∧ (NewTalosNICFixedIP "eth0" none 18446744073709551615).DeviceMTU = -1
    ∧ (NewTalosNICVIP "eth0" none 18446744073709551615).DeviceMTU = -1 := by
  have hsmall := c18_mtu_signed_conversion "eth0" none none 1500 (by norm_num)
  have hlarge := c18_mtu_signed_conversion "eth0" none none 18446744073709551615 (by norm_num)
  refine ⟨by norm_num, by norm_num, ?_, ?_, ?_⟩
  · simpa using hsmall.2.1 (by norm_num)
  · have h := (hlarge.2.2.1 (by norm_num)).1
    rw [h]
    norm_num
  · have h := (hlarge.2.2.1 (by norm_num)).1
    rw [hlarge.1, h]
    norm_num

end TalosUtils
